import Mathlib

/-!
Verification of the eink-custom-build core against its specification.

The development shallowly embeds the scheduling loop (`src/core/scheduler.py`),
the render orchestration layer (`src/core/renderer.py`), the configuration
accessors it relies on (`src/core/config.py`) and the standalone preview
operation (`src/web/routes.py`, `preview_module`).  Python dictionaries are
modelled as association lists with Python's update-in-place/append-on-new-key
semantics, thread interaction is modelled by oracle functions indexed by call
counters, and exceptions are modelled by explicit propagation flags.
-/

namespace EinkPi

/-! ## Python dictionaries -/

/-- A JSON-like settings value (string, integer, or nested dictionary),
as stored in `config.json` and passed around in settings maps. -/
inductive Val where
  | str (s : String)
  | int (n : Int)
  | dict (d : List (String × Val))

mutual

def decEqVal : (a b : Val) → Decidable (a = b)
  | .str a, .str b =>
    if h : a = b then isTrue (by rw [h]) else isFalse (by simp [h])
  | .int a, .int b =>
    if h : a = b then isTrue (by rw [h]) else isFalse (by simp [h])
  | .dict a, .dict b =>
    match decEqValList a b with
    | isTrue h => isTrue (by rw [h])
    | isFalse h => isFalse (by simp [h])
  | .str _, .int _ => isFalse (fun h => Val.noConfusion h)
  | .str _, .dict _ => isFalse (fun h => Val.noConfusion h)
  | .int _, .str _ => isFalse (fun h => Val.noConfusion h)
  | .int _, .dict _ => isFalse (fun h => Val.noConfusion h)
  | .dict _, .str _ => isFalse (fun h => Val.noConfusion h)
  | .dict _, .int _ => isFalse (fun h => Val.noConfusion h)

def decEqValList : (a b : List (String × Val)) → Decidable (a = b)
  | [], [] => isTrue rfl
  | [], _ :: _ => isFalse (fun h => List.noConfusion h)
  | _ :: _, [] => isFalse (fun h => List.noConfusion h)
  | (k₁, v₁) :: r₁, (k₂, v₂) :: r₂ =>
    if hk : k₁ = k₂ then
      match decEqVal v₁ v₂ with
      | isTrue hv =>
        match decEqValList r₁ r₂ with
        | isTrue hr => isTrue (by rw [hk, hv, hr])
        | isFalse hr => isFalse (by simp [hr])
      | isFalse hv => isFalse (by simp [hv])
    else isFalse (by simp [hk])

end

instance : DecidableEq Val := decEqVal

/-- A Python dictionary, as an insertion-ordered association list. -/
abbrev Dict (α : Type) := List (String × α)

/-- `d[k]` lookup (first binding wins; a well-formed dict has unique keys). -/
def dlookup {α : Type} (k : String) : Dict α → Option α
  | [] => none
  | (k', v) :: rest => if k' = k then some v else dlookup k rest

/-- `d[k] = v` assignment: update an existing key in place, append a new one
(Python dict insertion-order semantics). -/
def dinsert {α : Type} (k : String) (v : α) : Dict α → Dict α
  | [] => [(k, v)]
  | (k', v') :: rest => if k' = k then (k', v) :: rest else (k', v') :: dinsert k v rest

/-- Python `==` on dictionaries: value equality, ignoring insertion order
and object identity. -/
def dequiv {α : Type} (d₁ d₂ : Dict α) : Prop :=
  ∀ k, dlookup k d₁ = dlookup k d₂

theorem dlookup_dinsert_self {α : Type} (k : String) (v : α) (d : Dict α) :
    dlookup k (dinsert k v d) = some v := by
  induction d with
  | nil => simp [dinsert, dlookup]
  | cons hd tl ih =>
    obtain ⟨k', v'⟩ := hd
    by_cases h : k' = k <;> simp [dinsert, dlookup, h, ih]

theorem dlookup_dinsert_ne {α : Type} {k k' : String} (v : α) (d : Dict α)
    (h : k' ≠ k) : dlookup k (dinsert k' v d) = dlookup k d := by
  induction d with
  | nil => simp [dinsert, dlookup, h]
  | cons hd tl ih =>
    obtain ⟨k'', v''⟩ := hd
    by_cases h2 : k'' = k' <;> by_cases h3 : k'' = k <;>
      simp_all [dinsert, dlookup]

/-! ## Scheduler configuration (`src/core/config.py`)

Only the fields the scheduler reads.  An `Option` field models a key that may
be absent from `config.json`; the accessor applies the source's default. -/

/-- One entry of the `rotation` list: a dict `{"module": ..., "duration_minutes": ...}`
whose keys may be absent. -/
structure RotEntry where
  module? : Option String
  duration? : Option Int
deriving DecidableEq, Repr

/-- `entry.get("module", "")` -/
def RotEntry.moduleName (e : RotEntry) : String := e.module?.getD ""

/-- `int(entry.get("duration_minutes", 5))` -/
def RotEntry.durationMin (e : RotEntry) : Int := e.duration?.getD 5

/-- The scheduler-relevant view of a loaded configuration. -/
structure Config where
  refreshMinutes? : Option Int
  activeModule? : Option String
  rotation : List RotEntry
deriving DecidableEq, Repr

/-- `Config.refresh_minutes`: `get("display", "refresh_interval_minutes", default=30)` -/
def Config.refresh_minutes (c : Config) : Int := c.refreshMinutes?.getD 30

/-- `Config.active_module`: `get("active_module", default="calendar")` -/
def Config.active_module (c : Config) : String := c.activeModule?.getD "calendar"

/-- `Config.rotation_enabled`: `len(self.rotation) > 1` -/
def Config.rotation_enabled (c : Config) : Bool := c.rotation.length > 1

/-! ## Scheduler (`src/core/scheduler.py`)

The background worker interacts with the world through: `config.load()`
(modelled by a stream of configurations), `stop_event.is_set()`,
`force_event.wait(timeout)` and the render callback (which, in
`Scheduler._loop`/`_run_rotation_cycle`, is invoked with no surrounding
`try`, so a raising callback propagates).  Each interaction point is an
oracle indexed by how many calls of that kind happened before. -/

/-- Environment oracle for a scheduler run. `cfgs k` is the configuration
picked up by the `(k+1)`-th `config.load()`; `stopSet k` the result of the
`k`-th `stop_event.is_set()`; `forceWait k` the result of the `k`-th
`force_event.wait(timeout=...)` (`true` = woken by force, `false` =
timeout); `renderOk k` whether the `k`-th render-callback invocation
returns normally (`false` = it raises). -/
structure SchedEnv where
  cfgs : Nat → Config
  stopSet : Nat → Bool
  forceWait : Nat → Bool
  renderOk : Nat → Bool

/-- Call counters for the oracles, threaded through the run. -/
structure SchedCounters where
  loadIdx : Nat
  stopIdx : Nat
  forceIdx : Nat
  renderIdx : Nat
deriving DecidableEq, Repr

/-- Observable events of a scheduler run. -/
inductive SEv where
  /-- the render callback was invoked with this module name and returned -/
  | render (m : String)
  /-- the render callback was invoked with this module name and raised -/
  | renderRaise (m : String)
  /-- `force_event.wait(timeout=secs)` was entered; `interrupted` is its result -/
  | waitEv (secs : Int) (interrupted : Bool)
  /-- `force_event.clear()` -/
  | clearForce
deriving DecidableEq, Repr

/-- How one `_run_rotation_cycle` call ended. -/
inductive CycleExit where
  | stopped
  | forced
  | completed
  | raised
deriving DecidableEq, Repr

/-- `Scheduler._run_rotation_cycle`: iterate the rotation entries; per entry
check stop, render, then dwell (`force_event.wait(duration_min * 60)`); a
force wake clears the event and breaks out of the pass. -/
def runRotationCycle (env : SchedEnv) :
    List RotEntry → SchedCounters → List SEv × SchedCounters × CycleExit
  | [], s => ([], s, .completed)
  | e :: rest, s =>
    if env.stopSet s.stopIdx then
      ([], { s with stopIdx := s.stopIdx + 1 }, .stopped)
    else
      let s1 := { s with stopIdx := s.stopIdx + 1 }
      if env.renderOk s1.renderIdx then
        let s2 := { s1 with renderIdx := s1.renderIdx + 1 }
        let fired := env.forceWait s2.forceIdx
        let s3 := { s2 with forceIdx := s2.forceIdx + 1 }
        if fired then
          ([.render e.moduleName, .waitEv (e.durationMin * 60) true, .clearForce], s3, .forced)
        else
          let r := runRotationCycle env rest s3
          (.render e.moduleName :: .waitEv (e.durationMin * 60) false :: r.1, r.2.1, r.2.2)
      else
        ([.renderRaise e.moduleName], { s1 with renderIdx := s1.renderIdx + 1 }, .raised)

/-- How a (fuel-bounded) run of `Scheduler._loop` ended. -/
inductive RunResult where
  /-- the worker exited via the stop signal -/
  | stopped
  /-- an exception propagated out of the loop: the worker thread died -/
  | raised
  /-- fuel exhausted with the loop still running -/
  | fuelOut
deriving DecidableEq, Repr

/-- `Scheduler._loop`, bounded by `fuel` outer iterations: while not stopped,
reload config; in rotation mode run a rotation pass, otherwise render the
active module and wait one refresh interval (a force wake is cleared).
There is no `try` in the source loop, so a raising render callback ends the
run with `RunResult.raised`. -/
def runLoop (env : SchedEnv) : Nat → SchedCounters → List SEv × SchedCounters × RunResult
  | 0, s => ([], s, .fuelOut)
  | n + 1, s =>
    if env.stopSet s.stopIdx then
      ([], { s with stopIdx := s.stopIdx + 1 }, .stopped)
    else
      let s1 := { s with stopIdx := s.stopIdx + 1 }
      let cfg := env.cfgs s1.loadIdx
      let s2 := { s1 with loadIdx := s1.loadIdx + 1 }
      if cfg.rotation_enabled then
        let rc := runRotationCycle env cfg.rotation s2
        match rc.2.2 with
        | .raised => (rc.1, rc.2.1, .raised)
        | _ =>
          let rest := runLoop env n rc.2.1
          (rc.1 ++ rest.1, rest.2.1, rest.2.2)
      else
        if env.renderOk s2.renderIdx then
          let s3 := { s2 with renderIdx := s2.renderIdx + 1 }
          let fired := env.forceWait s3.forceIdx
          let s4 := { s3 with forceIdx := s3.forceIdx + 1 }
          let iterTrace := SEv.render cfg.active_module ::
            SEv.waitEv (cfg.refresh_minutes * 60) fired ::
            (if fired then [SEv.clearForce] else [])
          let rest := runLoop env n s4
          (iterTrace ++ rest.1, rest.2.1, rest.2.2)
        else
          ([.renderRaise cfg.active_module],
            { s2 with renderIdx := s2.renderIdx + 1 }, .raised)

/-- Initial counters (fresh scheduler run). -/
def s0 : SchedCounters := ⟨0, 0, 0, 0⟩

/-- Module names of the successful render-callback invocations, in order. -/
def rendersOf : List SEv → List String
  | [] => []
  | .render m :: rest => m :: rendersOf rest
  | _ :: rest => rendersOf rest

/-- Module names of all render-callback invocations (including raising ones). -/
def attemptsOf : List SEv → List String
  | [] => []
  | .render m :: rest => m :: attemptsOf rest
  | .renderRaise m :: rest => m :: attemptsOf rest
  | _ :: rest => attemptsOf rest

/-- The timeouts of the waits entered, in order. -/
def waitsOf : List SEv → List Int
  | [] => []
  | .waitEv secs _ :: rest => secs :: waitsOf rest
  | _ :: rest => waitsOf rest

theorem rendersOf_append (t₁ t₂ : List SEv) :
    rendersOf (t₁ ++ t₂) = rendersOf t₁ ++ rendersOf t₂ := by
  induction t₁ with
  | nil => rfl
  | cons e rest ih => cases e <;> simp [rendersOf, ih]

theorem attemptsOf_append (t₁ t₂ : List SEv) :
    attemptsOf (t₁ ++ t₂) = attemptsOf t₁ ++ attemptsOf t₂ := by
  induction t₁ with
  | nil => rfl
  | cons e rest ih => cases e <;> simp [attemptsOf, ih]

theorem waitsOf_append (t₁ t₂ : List SEv) :
    waitsOf (t₁ ++ t₂) = waitsOf t₁ ++ waitsOf t₂ := by
  induction t₁ with
  | nil => rfl
  | cons e rest ih => cases e <;> simp [waitsOf, ih]

/-! ## Rotation-pass lemmas -/

/-- The trace of an uninterrupted rotation pass: per entry a returning render
followed by a full dwell. -/
def cleanCycleTrace : List RotEntry → List SEv
  | [] => []
  | e :: rest =>
    .render e.moduleName :: .waitEv (e.durationMin * 60) false :: cleanCycleTrace rest

theorem rendersOf_cleanCycleTrace (entries : List RotEntry) :
    rendersOf (cleanCycleTrace entries) = entries.map RotEntry.moduleName := by
  induction entries with
  | nil => rfl
  | cons e rest ih => simp [cleanCycleTrace, rendersOf, ih]

theorem waitsOf_cleanCycleTrace (entries : List RotEntry) :
    waitsOf (cleanCycleTrace entries) = entries.map (fun e => e.durationMin * 60) := by
  induction entries with
  | nil => rfl
  | cons e rest ih => simp [cleanCycleTrace, waitsOf, ih]

/-- A rotation pass during which no stop and no force signal fires, and every
render returns, runs to completion with the clean trace. -/
theorem runRotationCycle_clean (env : SchedEnv) (entries : List RotEntry)
    (s : SchedCounters)
    (hstop : ∀ k, k < entries.length → env.stopSet (s.stopIdx + k) = false)
    (hforce : ∀ k, k < entries.length → env.forceWait (s.forceIdx + k) = false)
    (hrender : ∀ k, k < entries.length → env.renderOk (s.renderIdx + k) = true) :
    runRotationCycle env entries s =
      (cleanCycleTrace entries,
       { s with stopIdx := s.stopIdx + entries.length,
                forceIdx := s.forceIdx + entries.length,
                renderIdx := s.renderIdx + entries.length },
       CycleExit.completed) := by
  induction entries generalizing s with
  | nil => simp [runRotationCycle, cleanCycleTrace]
  | cons e rest ih =>
    have h0s := hstop 0 (by simp)
    have h0f := hforce 0 (by simp)
    have h0r := hrender 0 (by simp)
    simp only [Nat.add_zero] at h0s h0f h0r
    have ihr := ih
      { s with stopIdx := s.stopIdx + 1, forceIdx := s.forceIdx + 1,
               renderIdx := s.renderIdx + 1 }
      (fun k hk => by
        have := hstop (k + 1) (by simpa using Nat.succ_lt_succ hk)
        simpa [Nat.add_assoc, Nat.add_comm 1 k] using this)
      (fun k hk => by
        have := hforce (k + 1) (by simpa using Nat.succ_lt_succ hk)
        simpa [Nat.add_assoc, Nat.add_comm 1 k] using this)
      (fun k hk => by
        have := hrender (k + 1) (by simpa using Nat.succ_lt_succ hk)
        simpa [Nat.add_assoc, Nat.add_comm 1 k] using this)
    simp only [runRotationCycle, h0s, h0f, h0r, Bool.false_eq_true, if_false,
      if_true, ihr, cleanCycleTrace]
    simp [SchedCounters.mk.injEq, Prod.mk.injEq]
    omega

/-- The trace of a rotation pass whose last dwelt entry is interrupted by the
force signal: full render+dwell pairs, then a render, an interrupted wait
and the clearing of the force event. -/
def forcedCycleTrace : List RotEntry → List SEv
  | [] => []
  | [e] => [.render e.moduleName, .waitEv (e.durationMin * 60) true, .clearForce]
  | e :: rest =>
    .render e.moduleName :: .waitEv (e.durationMin * 60) false :: forcedCycleTrace rest

theorem rendersOf_forcedCycleTrace (entries : List RotEntry) :
    rendersOf (forcedCycleTrace entries) = entries.map RotEntry.moduleName := by
  induction entries with
  | nil => rfl
  | cons e rest ih =>
    cases rest with
    | nil => simp [forcedCycleTrace, rendersOf]
    | cons e' rest' => simp [forcedCycleTrace, rendersOf] at ih ⊢; exact ih

/-- A rotation pass in which the force signal fires during the dwell of entry
`i` (and no stop fires, and every render returns) renders entries `0..i`,
clears the force event and abandons the pass with exit `forced`. -/
theorem runRotationCycle_forced (env : SchedEnv) (entries : List RotEntry)
    (s : SchedCounters) (i : Nat) (hi : i < entries.length)
    (hstop : ∀ k, k ≤ i → env.stopSet (s.stopIdx + k) = false)
    (hforceB : ∀ k, k < i → env.forceWait (s.forceIdx + k) = false)
    (hforceA : env.forceWait (s.forceIdx + i) = true)
    (hrender : ∀ k, k ≤ i → env.renderOk (s.renderIdx + k) = true) :
    runRotationCycle env entries s =
      (forcedCycleTrace (entries.take (i + 1)),
       { s with stopIdx := s.stopIdx + i + 1,
                forceIdx := s.forceIdx + i + 1,
                renderIdx := s.renderIdx + i + 1 },
       CycleExit.forced) := by
  induction entries generalizing s i with
  | nil => simp at hi
  | cons e rest ih =>
    have h0s := hstop 0 (by simp)
    have h0r := hrender 0 (by simp)
    simp only [Nat.add_zero] at h0s h0r
    cases i with
    | zero =>
      simp only [Nat.add_zero] at hforceA
      simp [runRotationCycle, h0s, h0r, hforceA, forcedCycleTrace]
    | succ j =>
      have hj : j < rest.length := by simpa using Nat.lt_of_succ_lt_succ hi
      have h0f := hforceB 0 (by omega)
      simp only [Nat.add_zero] at h0f
      have ihr := ih
        { s with stopIdx := s.stopIdx + 1, forceIdx := s.forceIdx + 1,
                 renderIdx := s.renderIdx + 1 }
        j hj
        (fun k hk => by
          have := hstop (k + 1) (by omega)
          simpa [Nat.add_assoc, Nat.add_comm 1 k] using this)
        (fun k hk => by
          have := hforceB (k + 1) (by omega)
          simpa [Nat.add_assoc, Nat.add_comm 1 k] using this)
        (by
          have := hforceA
          simpa [Nat.add_assoc, Nat.add_comm 1 j] using this)
        (fun k hk => by
          have := hrender (k + 1) (by omega)
          simpa [Nat.add_assoc, Nat.add_comm 1 k] using this)
      simp only [runRotationCycle, h0s, h0f, h0r, Bool.false_eq_true, if_false,
        if_true, ihr]
      cases rest with
      | nil => simp at hj
      | cons e' rest' =>
        simp [forcedCycleTrace, List.take, SchedCounters.mk.injEq, Prod.mk.injEq]
        omega

/-- Whatever its later waits do, a rotation pass over a nonempty list whose
first stop check is negative and whose first render returns begins by
rendering the first entry's module. -/
theorem runRotationCycle_first_render (env : SchedEnv) (e : RotEntry)
    (rest : List RotEntry) (s : SchedCounters)
    (hstop : env.stopSet s.stopIdx = false)
    (hrender : env.renderOk s.renderIdx = true) :
    (rendersOf (runRotationCycle env (e :: rest) s).1).head? = some e.moduleName := by
  by_cases hf : env.forceWait s.forceIdx <;>
    simp [runRotationCycle, hstop, hrender, hf, rendersOf]

theorem clearForce_mem_forcedCycleTrace (entries : List RotEntry)
    (h : entries ≠ []) : SEv.clearForce ∈ forcedCycleTrace entries := by
  induction entries with
  | nil => simp at h
  | cons e rest ih =>
    cases rest with
    | nil => simp [forcedCycleTrace]
    | cons e' rest' =>
      simp only [forcedCycleTrace, List.mem_cons]
      exact Or.inr (Or.inr (ih (by simp)))

/-! ## Loop step lemmas -/

/-- One outer loop iteration in rotation mode: reload, run a pass; unless the
pass raised, continue with the remaining fuel. -/
theorem runLoop_step_rotation (env : SchedEnv) (n : Nat) (s : SchedCounters)
    (hstop : env.stopSet s.stopIdx = false)
    (hrot : (env.cfgs s.loadIdx).rotation_enabled = true)
    (hnr : (runRotationCycle env (env.cfgs s.loadIdx).rotation
        { s with stopIdx := s.stopIdx + 1, loadIdx := s.loadIdx + 1 }).2.2
        ≠ CycleExit.raised) :
    runLoop env (n + 1) s =
      ((runRotationCycle env (env.cfgs s.loadIdx).rotation
          { s with stopIdx := s.stopIdx + 1, loadIdx := s.loadIdx + 1 }).1 ++
        (runLoop env n (runRotationCycle env (env.cfgs s.loadIdx).rotation
          { s with stopIdx := s.stopIdx + 1, loadIdx := s.loadIdx + 1 }).2.1).1,
       (runLoop env n (runRotationCycle env (env.cfgs s.loadIdx).rotation
          { s with stopIdx := s.stopIdx + 1, loadIdx := s.loadIdx + 1 }).2.1).2.1,
       (runLoop env n (runRotationCycle env (env.cfgs s.loadIdx).rotation
          { s with stopIdx := s.stopIdx + 1, loadIdx := s.loadIdx + 1 }).2.1).2.2) := by
  simp only [runLoop, hstop, Bool.false_eq_true, if_false, hrot, if_true]

/-- One outer loop iteration in single-module mode with a returning render:
reload, render the active module, wait one interval (clearing a force wake),
continue. -/
theorem runLoop_step_single (env : SchedEnv) (n : Nat) (s : SchedCounters)
    (hstop : env.stopSet s.stopIdx = false)
    (hrot : (env.cfgs s.loadIdx).rotation_enabled = false)
    (hrender : env.renderOk s.renderIdx = true) :
    runLoop env (n + 1) s =
      (SEv.render (env.cfgs s.loadIdx).active_module ::
        SEv.waitEv ((env.cfgs s.loadIdx).refresh_minutes * 60)
          (env.forceWait s.forceIdx) ::
        ((if env.forceWait s.forceIdx then [SEv.clearForce] else []) ++
          (runLoop env n
            { s with loadIdx := s.loadIdx + 1, stopIdx := s.stopIdx + 1,
                     forceIdx := s.forceIdx + 1,
                     renderIdx := s.renderIdx + 1 }).1),
       (runLoop env n
          { s with loadIdx := s.loadIdx + 1, stopIdx := s.stopIdx + 1,
                   forceIdx := s.forceIdx + 1, renderIdx := s.renderIdx + 1 }).2.1,
       (runLoop env n
          { s with loadIdx := s.loadIdx + 1, stopIdx := s.stopIdx + 1,
                   forceIdx := s.forceIdx + 1, renderIdx := s.renderIdx + 1 }).2.2) := by
  simp only [runLoop, hstop, Bool.false_eq_true, if_false, hrot, hrender, if_true,
    List.cons_append, List.nil_append]

/-! ## Claim C3 -/

/-- C3: For every rotation list with N ≥ 2 entries, one rotation pass during
which neither the stop nor the force signal fires invokes the render callback
exactly once per entry, in list order (entry 0 first, entry N-1 last),
before any repetition: the rendered modules are exactly the entries' modules
in list order. -/
theorem rotation_pass_renders_each_entry_once (env : SchedEnv)
    (entries : List RotEntry) (s : SchedCounters)
    (hN : 2 ≤ entries.length)
    (hstop : ∀ k, k < entries.length → env.stopSet (s.stopIdx + k) = false)
    (hforce : ∀ k, k < entries.length → env.forceWait (s.forceIdx + k) = false)
    (hrender : ∀ k, k < entries.length → env.renderOk (s.renderIdx + k) = true) :
    rendersOf (runRotationCycle env entries s).1
      = entries.map RotEntry.moduleName := by
  rw [runRotationCycle_clean env entries s hstop hforce hrender]
  exact rendersOf_cleanCycleTrace entries

/-- Environment used by the C3 witness: two-entry rotation, no signals. -/
def witEnvC3 : SchedEnv :=
  { cfgs := fun _ =>
      { refreshMinutes? := none, activeModule? := none,
        rotation := [⟨some "a", some 1⟩, ⟨some "b", some 2⟩] },
    stopSet := fun _ => false,
    forceWait := fun _ => false,
    renderOk := fun _ => true }

theorem rotation_pass_renders_each_entry_once_witness :
    2 ≤ ([⟨some "a", some 1⟩, ⟨some "b", some 2⟩] : List RotEntry).length ∧
    rendersOf (runRotationCycle witEnvC3
        [⟨some "a", some 1⟩, ⟨some "b", some 2⟩] s0).1 = ["a", "b"] := by
  constructor
  · decide
  · have h := rotation_pass_renders_each_entry_once witEnvC3
      [⟨some "a", some 1⟩, ⟨some "b", some 2⟩] s0 (by decide)
      (fun k _ => rfl) (fun k _ => rfl) (fun k _ => rfl)
    simpa [RotEntry.moduleName] using h

/-! ## Claim C2 -/

theorem head?_append_of_head? {α : Type} {l₁ l₂ : List α} {a : α}
    (h : l₁.head? = some a) : (l₁ ++ l₂).head? = some a := by
  cases l₁ with
  | nil => simp at h
  | cons x t => simpa using h

/-- With a render callback that never raises, a rotation pass never ends in
the `raised` exit. -/
theorem runRotationCycle_exit_ne_raised (env : SchedEnv)
    (entries : List RotEntry) (s : SchedCounters)
    (hrender : ∀ k, env.renderOk k = true) :
    (runRotationCycle env entries s).2.2 ≠ CycleExit.raised := by
  induction entries generalizing s with
  | nil => simp [runRotationCycle]
  | cons e rest ih =>
    simp only [runRotationCycle, hrender]
    by_cases hs : env.stopSet s.stopIdx
    · simp [hs]
    · by_cases hf : env.forceWait s.forceIdx
      · simp [hs, hf]
      · simp only [hs, hf, Bool.false_eq_true, if_false, if_true]
        exact ih _

/-- A loop step in rotation mode, when the first stop checks are negative and
the first render returns, begins by rendering the first entry of the list
just reloaded. -/
theorem runLoop_rotation_first_render (env : SchedEnv) (n : Nat)
    (s : SchedCounters) (e0 : RotEntry) (rest0 : List RotEntry)
    (hstop : env.stopSet s.stopIdx = false)
    (hstop2 : env.stopSet (s.stopIdx + 1) = false)
    (hrot : (env.cfgs s.loadIdx).rotation_enabled = true)
    (hlist : (env.cfgs s.loadIdx).rotation = e0 :: rest0)
    (hrender : env.renderOk s.renderIdx = true) :
    (rendersOf (runLoop env (n + 1) s).1).head? = some e0.moduleName := by
  have hfirst := runRotationCycle_first_render env e0 rest0
    { s with stopIdx := s.stopIdx + 1, loadIdx := s.loadIdx + 1 }
    (by simpa using hstop2) (by simpa using hrender)
  simp only [runLoop, hstop, Bool.false_eq_true, if_false, hrot, if_true, hlist]
  split
  · simpa using hfirst
  · rw [rendersOf_append]
    exact head?_append_of_head? (by simpa using hfirst)

/-- C2: In rotation mode, if the force signal fires while entry `i` is being
dwelt on (and the run is otherwise undisturbed), the scheduler clears the
force signal, abandons the remainder of the pass, and the very next module
rendered after entries `0..i` is the module of entry 0 of the freshly
reloaded rotation list — never entry `i+1` and never a resumption mid-list. -/
theorem force_restarts_rotation_from_entry_zero (env : SchedEnv) (fuel i : Nat)
    (hrot0 : (env.cfgs 0).rotation_enabled = true)
    (hrot1 : (env.cfgs 1).rotation_enabled = true)
    (hi : i < (env.cfgs 0).rotation.length)
    (hstop : ∀ k, env.stopSet k = false)
    (hforceB : ∀ k, k < i → env.forceWait k = false)
    (hforceA : env.forceWait i = true)
    (hrender : ∀ k, env.renderOk k = true)
    (hfuel : 2 ≤ fuel) :
    SEv.clearForce ∈ (runLoop env fuel s0).1 ∧
    (rendersOf (runLoop env fuel s0).1).take (i + 1)
      = ((env.cfgs 0).rotation.take (i + 1)).map RotEntry.moduleName ∧
    (rendersOf (runLoop env fuel s0).1).get? (i + 1)
      = ((env.cfgs 1).rotation.head?).map RotEntry.moduleName := by
  obtain ⟨n, rfl⟩ : ∃ n, fuel = n + 1 + 1 := ⟨fuel - 2, by omega⟩
  -- the first pass is interrupted by the force signal during entry i's dwell
  have hrc : runRotationCycle env (env.cfgs 0).rotation ⟨1, 1, 0, 0⟩ =
      (forcedCycleTrace ((env.cfgs 0).rotation.take (i + 1)),
       ⟨1, i + 2, i + 1, i + 1⟩, CycleExit.forced) := by
    have h := runRotationCycle_forced env (env.cfgs 0).rotation ⟨1, 1, 0, 0⟩ i hi
      (fun k _ => hstop _) (fun k hk => by simpa using hforceB k hk)
      (by simpa using hforceA) (fun k _ => hrender _)
    rw [h]
    simp only [Prod.mk.injEq, SchedCounters.mk.injEq, eq_self_iff_true,
      true_and, and_true]
    omega
  have hstep := runLoop_step_rotation env (n + 1) s0 (hstop 0) hrot0
    (runRotationCycle_exit_ne_raised env _ _ hrender)
  simp only [s0] at hstep
  rw [hrc] at hstep
  simp only [Prod.fst, Prod.snd] at hstep
  -- the freshly reloaded list is nonempty
  obtain ⟨e0, rest0, hrot1list⟩ :
      ∃ e0 rest0, (env.cfgs 1).rotation = e0 :: rest0 := by
    rcases hlist : (env.cfgs 1).rotation with _ | ⟨e0, rest0⟩
    · rw [Config.rotation_enabled, hlist] at hrot1
      simp at hrot1
    · exact ⟨e0, rest0, rfl⟩
  -- head of the renders of the continuation run
  have hnext : (rendersOf (runLoop env (n + 1)
        (⟨1, i + 2, i + 1, i + 1⟩ : SchedCounters)).1).head?
      = some e0.moduleName :=
    runLoop_rotation_first_render env n ⟨1, i + 2, i + 1, i + 1⟩ e0 rest0
      (hstop _) (hstop _) hrot1 hrot1list (hrender _)
  -- the interrupted pass renders entries 0..i and contains the clear event
  have htake0 : ((env.cfgs 0).rotation.take (i + 1)) ≠ [] := by
    have hlt : ((env.cfgs 0).rotation.take (i + 1)).length = i + 1 := by
      rw [List.length_take]
      omega
    intro hnil
    rw [hnil] at hlt
    simp at hlt
  have hlen : (rendersOf (forcedCycleTrace
      ((env.cfgs 0).rotation.take (i + 1)))).length = i + 1 := by
    rw [rendersOf_forcedCycleTrace, List.length_map, List.length_take]
    omega
  have hgoal0 : runLoop env (n + 1 + 1) s0 = runLoop env (n + 1 + 1) ⟨0, 0, 0, 0⟩ := rfl
  refine ⟨?_, ?_, ?_⟩
  · rw [hgoal0, hstep]
    exact List.mem_append_left _ (clearForce_mem_forcedCycleTrace _ htake0)
  · rw [hgoal0, hstep, rendersOf_append, List.take_left' hlen,
      rendersOf_forcedCycleTrace]
  · rw [hgoal0, hstep, rendersOf_append, List.get?_append_right (by omega), hlen]
    simp only [Nat.sub_self, List.get?_zero]
    rw [hnext, hrot1list]
    rfl

/-- Environment for the C2 witness: rotation `[A:1, B:2, C:3]`, force fires
during entry 2 (module C), no stop, renders never raise. -/
def witEnvC2 : SchedEnv :=
  { cfgs := fun _ => ⟨none, none,
      [⟨some "A", some 1⟩, ⟨some "B", some 2⟩, ⟨some "C", some 3⟩]⟩,
    stopSet := fun _ => false,
    forceWait := fun k => decide (k = 2),
    renderOk := fun _ => true }

theorem force_restarts_rotation_from_entry_zero_witness :
    SEv.clearForce ∈ (runLoop witEnvC2 2 s0).1 ∧
    (rendersOf (runLoop witEnvC2 2 s0).1).take 3 = ["A", "B", "C"] ∧
    (rendersOf (runLoop witEnvC2 2 s0).1).get? 3 = some "A" := by
  have h := force_restarts_rotation_from_entry_zero witEnvC2 2 2 rfl rfl
    (by decide) (fun k => rfl) (by decide) rfl (fun k => rfl) (by decide)
  exact ⟨h.1, h.2.1.trans (by decide), h.2.2.trans (by decide)⟩

/-! ## Claim C1 -/

/-- Environment for the C1 counterexample: single-module mode, the render
callback raises on every invocation. -/
def cexEnvC1 : SchedEnv :=
  { cfgs := fun _ => ⟨some 1, some "clock", []⟩,
    stopSet := fun _ => false,
    forceWait := fun _ => false,
    renderOk := fun _ => false }

/-- C1 counterexample: the scheduler loop contains no handler, so the very
first raising invocation of the render callback terminates the worker
(`RunResult.raised`): with fuel for 11 iterations only one render attempt
ever occurs, refuting both "the error is caught and logged inside the
scheduler loop" and "after any number of consecutive failing renders the
next scheduled render attempt still occurs". -/
theorem scheduler_loop_does_not_catch_render_errors :
    (runLoop cexEnvC1 11 s0).2.2 = RunResult.raised ∧
    attemptsOf (runLoop cexEnvC1 11 s0).1 = ["clock"] := by
  decide

/-- With a render callback that never raises, no fuel-bounded run of the
scheduler loop ends with an escaped exception. -/
theorem runLoop_never_raises (env : SchedEnv) (fuel : Nat) (s : SchedCounters)
    (hrender : ∀ k, env.renderOk k = true) :
    (runLoop env fuel s).2.2 ≠ RunResult.raised := by
  induction fuel generalizing s with
  | zero => simp [runLoop]
  | succ n ih =>
    simp only [runLoop]
    by_cases hs : env.stopSet s.stopIdx
    · simp [hs]
    · simp only [hs, Bool.false_eq_true, if_false]
      by_cases hrot : (env.cfgs s.loadIdx).rotation_enabled
      · simp only [hrot, if_true]
        split
        · next heq =>
          exact absurd heq (runRotationCycle_exit_ne_raised env _ _ hrender)
        · exact ih _
      · simp only [hrot, Bool.false_eq_true, if_false, hrender, if_true]
        exact ih _

/-- In single-module mode with a never-raising callback and no stop signal,
every loop iteration performs exactly one render attempt: `fuel` iterations
give `fuel` attempts. -/
theorem attempts_count_single_mode (env : SchedEnv) (fuel : Nat)
    (s : SchedCounters)
    (hrender : ∀ k, env.renderOk k = true)
    (hstop : ∀ k, env.stopSet k = false)
    (hrot : ∀ k, (env.cfgs k).rotation_enabled = false) :
    (attemptsOf (runLoop env fuel s).1).length = fuel := by
  induction fuel generalizing s with
  | zero => simp [runLoop, attemptsOf]
  | succ n ih =>
    rw [runLoop_step_single env n s (hstop _) (hrot _) (hrender _)]
    by_cases hf : env.forceWait s.forceIdx <;>
      simp [hf, attemptsOf, attemptsOf_append, ih]

/-! ## Claim C6 -/

/-- Environment for the C6 counterexample: both rotation entries are
configured with `duration_minutes = 0`. -/
def cexEnvC6 : SchedEnv :=
  { cfgs := fun _ => ⟨some 0, none, [⟨some "a", some 0⟩, ⟨some "b", some 0⟩]⟩,
    stopSet := fun _ => false,
    forceWait := fun _ => false,
    renderOk := fun _ => true }

/-- C6 counterexample: a duration configured as zero is used as-is
(`int(entry.get("duration_minutes", 5)) = 0`), so the dwell waits of the
pass have timeout 0 — the wait duration is not always strictly positive. -/
theorem zero_duration_gives_zero_wait :
    waitsOf (runRotationCycle cexEnvC6 (cexEnvC6.cfgs 0).rotation s0).1 = [0, 0] ∧
    ¬ (∀ w ∈ waitsOf (runRotationCycle cexEnvC6
        (cexEnvC6.cfgs 0).rotation s0).1, 0 < w) := by
  decide

/-- C6 (amended): a *missing* `duration_minutes` defaults to 5 minutes and a
*missing* `refresh_interval_minutes` defaults to 30 minutes, so waits for
missing values are strictly positive (300 s resp. 1800 s); but a value
configured as zero is used as-is, so only missing values are coerced. The
dwell waits of an undisturbed pass are exactly `durationMin * 60` per entry. -/
theorem missing_durations_default_positive (env : SchedEnv)
    (entries : List RotEntry) (s : SchedCounters) (cfg : Config)
    (hstop : ∀ k, k < entries.length → env.stopSet (s.stopIdx + k) = false)
    (hforce : ∀ k, k < entries.length → env.forceWait (s.forceIdx + k) = false)
    (hrender : ∀ k, k < entries.length → env.renderOk (s.renderIdx + k) = true) :
    waitsOf (runRotationCycle env entries s).1
      = entries.map (fun e => e.durationMin * 60) ∧
    (∀ e ∈ entries, e.duration? = none → e.durationMin * 60 = 300) ∧
    (cfg.refreshMinutes? = none → cfg.refresh_minutes * 60 = 1800) := by
  refine ⟨?_, ?_, ?_⟩
  · rw [runRotationCycle_clean env entries s hstop hforce hrender]
    exact waitsOf_cleanCycleTrace entries
  · intro e _ hnone
    simp [RotEntry.durationMin, hnone]
  · intro hnone
    simp [Config.refresh_minutes, hnone]

/-- Environment for the C6 amended witness: one entry with a missing duration,
one with a configured duration. -/
def witEnvC6 : SchedEnv :=
  { cfgs := fun _ => ⟨none, none, [⟨some "a", none⟩, ⟨some "b", some 2⟩]⟩,
    stopSet := fun _ => false,
    forceWait := fun _ => false,
    renderOk := fun _ => true }

theorem missing_durations_default_positive_witness :
    waitsOf (runRotationCycle witEnvC6 (witEnvC6.cfgs 0).rotation s0).1
      = [300, 120] ∧
    ((⟨some "a", none⟩ : RotEntry).durationMin * 60 = 300) ∧
    ((⟨none, none, []⟩ : Config).refresh_minutes * 60 = 1800) := by
  have h := missing_durations_default_positive witEnvC6
    (witEnvC6.cfgs 0).rotation s0 ⟨none, none, []⟩
    (fun k _ => rfl) (fun k _ => rfl) (fun k _ => rfl)
  refine ⟨h.1.trans (by decide), ?_, h.2.2 rfl⟩
  exact h.2.1 ⟨some "a", none⟩ (by decide) rfl

/-! ## Claim C7 -/

/-- C7: In single-module mode every loop iteration re-reads the configuration
before starting its wait: the `k`-th wait of the run uses exactly the
refresh interval of the configuration loaded at iteration `k`
(`RefreshMinutes() * 60`).  In particular the wait in progress is unaffected
by any later configuration change, and a change lands at the next wait. -/
theorem single_mode_wait_uses_freshly_loaded_interval (env : SchedEnv)
    (fuel : Nat) (s : SchedCounters) (k : Nat) (hk : k < fuel)
    (hrot : ∀ j, j ≤ k → (env.cfgs (s.loadIdx + j)).rotation_enabled = false)
    (hstop : ∀ j, j ≤ k → env.stopSet (s.stopIdx + j) = false)
    (hrender : ∀ j, j ≤ k → env.renderOk (s.renderIdx + j) = true) :
    (waitsOf (runLoop env fuel s).1).get? k
      = some ((env.cfgs (s.loadIdx + k)).refresh_minutes * 60) := by
  induction fuel generalizing s k with
  | zero => omega
  | succ n ih =>
    rw [runLoop_step_single env n s
      (by simpa using hstop 0 (by omega))
      (by simpa using hrot 0 (by omega))
      (by simpa using hrender 0 (by omega))]
    cases k with
    | zero =>
      by_cases hf : env.forceWait s.forceIdx <;>
        simp [hf, waitsOf, waitsOf_append]
    | succ j =>
      have ihr := ih
        { s with loadIdx := s.loadIdx + 1, stopIdx := s.stopIdx + 1,
                 forceIdx := s.forceIdx + 1, renderIdx := s.renderIdx + 1 }
        j (by omega)
        (fun j' hj' => by
          have := hrot (j' + 1) (by omega)
          simpa [Nat.add_assoc, Nat.add_comm 1 j'] using this)
        (fun j' hj' => by
          have := hstop (j' + 1) (by omega)
          simpa [Nat.add_assoc, Nat.add_comm 1 j'] using this)
        (fun j' hj' => by
          have := hrender (j' + 1) (by omega)
          simpa [Nat.add_assoc, Nat.add_comm 1 j'] using this)
      have harith : s.loadIdx + 1 + j = s.loadIdx + (j + 1) := by omega
      rw [harith] at ihr
      by_cases hf : env.forceWait s.forceIdx <;>
        (simp [hf, waitsOf, waitsOf_append]; simpa using ihr)

/-- Environment for the C7 witness: the configuration loaded at iteration `k`
has `refresh_interval_minutes = k + 1`. -/
def witEnvC7 : SchedEnv :=
  { cfgs := fun k => ⟨some ((k : Int) + 1), some "m", []⟩,
    stopSet := fun _ => false,
    forceWait := fun _ => false,
    renderOk := fun _ => true }

theorem single_mode_wait_uses_freshly_loaded_interval_witness :
    (waitsOf (runLoop witEnvC7 3 s0).1).get? 1 = some 120 := by
  have h := single_mode_wait_uses_freshly_loaded_interval witEnvC7 3 s0 1
    (by omega) (fun j _ => rfl) (fun j _ => rfl) (fun j _ => rfl)
  exact h.trans (by decide)

/-! ## Renderer (`src/core/renderer.py`) and preview (`src/web/routes.py`)

The renderer resolves the module and its settings from the configuration,
invokes the provider and drives the display sink.  Provider behaviour is a
per-module oracle (its defaults, whether `render` raises, and its error
message); sink failures are oracles indexed by per-operation call counters.
Python's dict aliasing — `config.module_settings(name)` returns the stored
dict itself, which the renderer then mutates in place — is modelled by
explicit state passing: the stored table is updated exactly when the lookup
returned a stored non-empty dict. -/

/-- Behaviour of one registered module provider. -/
structure ModuleBeh where
  defaults : Dict Val
  renderFails : Bool
  errMsg : String
deriving DecidableEq

/-- The renderer-relevant view of the configuration store. -/
structure CfgData where
  modulesTable : Dict (Dict Val)
  timezone : String
  displayWidth : Int
  displayHeight : Int
  activeModule? : Option String
  fitbitClientId : String
  fitbitClientSecret : String
deriving DecidableEq

/-- `Config.active_module` as read by the renderer. -/
def CfgData.active_module (c : CfgData) : String := c.activeModule?.getD "calendar"

/-- `Config.module_settings`: `get("modules", name, default={})`. -/
def CfgData.module_settings (c : CfgData) (name : String) : Dict Val :=
  (dlookup name c.modulesTable).getD []

/-- Failure schedules of the display sink, per operation call counter. -/
structure SinkEnv where
  initF : Nat → Bool
  showF : Nat → Bool
  sleepF : Nat → Bool

/-- Environment of a renderer run: the module registry and the sink. -/
structure RenderEnv where
  registry : Dict ModuleBeh
  sink : SinkEnv

/-- Renderer-visible mutable state: the configuration store and the sink
call counters. -/
structure RState where
  cfg : CfgData
  initIdx : Nat
  showIdx : Nat
  sleepIdx : Nat

/-- Observable events of a renderer/preview run. -/
inductive REv where
  | logUnknown (name : String)
  | providerDefaults (name : String)
  | providerRender (name : String) (w h : Int) (settings : Dict Val) (ok : Bool)
  | logRenderError (name : String)
  | sinkInit
  | sinkShowImage (name : String)
  | sinkShowError (msg : String)
  | sinkSleep
deriving DecidableEq

/-- `Renderer._show_error`: build the error bitmap (the font fallback chain
has no observable effect) and drive the sink through `init → show → sleep`
with no handler: the first sink failure propagates.  The returned flag is
`true` iff an exception escaped.  A failing call is still recorded in the
trace (the call was made and then raised). -/
def showError (env : RenderEnv) (msg : String) (s : RState) :
    List REv × RState × Bool :=
  if env.sink.initF s.initIdx then
    ([.sinkInit], { s with initIdx := s.initIdx + 1 }, true)
  else
    let s1 := { s with initIdx := s.initIdx + 1 }
    if env.sink.showF s1.showIdx then
      ([.sinkInit, .sinkShowError msg], { s1 with showIdx := s1.showIdx + 1 }, true)
    else
      let s2 := { s1 with showIdx := s1.showIdx + 1 }
      ([.sinkInit, .sinkShowError msg, .sinkSleep],
        { s2 with sleepIdx := s2.sleepIdx + 1 }, env.sink.sleepF s2.sleepIdx)

/-- The sink sequence of the `try` block in `Renderer.render_and_display`
after a successful provider render: `init() → show(image) → sleep()`.  Any
failure among them is caught by the `except`, logged, and routed to
`_show_error`, whose own failures escape. -/
def displayAttempt (env : RenderEnv) (name : String) (s : RState) :
    List REv × RState × Bool :=
  if env.sink.initF s.initIdx then
    let sA := { s with initIdx := s.initIdx + 1 }
    let r := showError env "display init failed" sA
    (REv.sinkInit :: REv.logRenderError name :: r.1, r.2.1, r.2.2)
  else
    let sA := { s with initIdx := s.initIdx + 1 }
    if env.sink.showF sA.showIdx then
      let sB := { sA with showIdx := sA.showIdx + 1 }
      let r := showError env "display show failed" sB
      (REv.sinkInit :: REv.sinkShowImage name :: REv.logRenderError name :: r.1,
        r.2.1, r.2.2)
    else
      let sB := { sA with showIdx := sA.showIdx + 1 }
      if env.sink.sleepF sB.sleepIdx then
        let sC := { sB with sleepIdx := sB.sleepIdx + 1 }
        let r := showError env "display sleep failed" sC
        (REv.sinkInit :: REv.sinkShowImage name :: REv.sinkSleep ::
          REv.logRenderError name :: r.1, r.2.1, r.2.2)
      else
        let sC := { sB with sleepIdx := sB.sleepIdx + 1 }
        ([REv.sinkInit, REv.sinkShowImage name, REv.sinkSleep], sC, false)

/-- `Renderer.render_and_display`.  Settings resolution: stored settings if
non-empty, else `default_settings()`; inject `_timezone`, and for the tasks
module a snapshot of the habits settings; Python's in-place mutation of the
stored dict is reflected into the store exactly when the stored dict was
the one mutated (present and non-empty).  Then render and drive the sink;
provider and sink failures inside the `try` are absorbed into `_show_error`.
The returned flag is `true` iff an exception escaped the whole call. -/
def render_and_display (env : RenderEnv) (name? : Option String) (s : RState) :
    List REv × RState × Bool :=
  let name := name?.getD s.cfg.active_module
  match dlookup name env.registry with
  | none =>
    let r := showError env ("Unknown module: " ++ name) s
    (REv.logUnknown name :: r.1, r.2.1, r.2.2)
  | some m =>
    let stored? := dlookup name s.cfg.modulesTable
    let settings0 := stored?.getD []
    let aliased := stored?.isSome && !settings0.isEmpty
    let base := if settings0.isEmpty then m.defaults else settings0
    let baseEvs := if settings0.isEmpty then [REv.providerDefaults name] else []
    let settings1 := dinsert "_timezone" (Val.str s.cfg.timezone) base
    let cfg1 := if aliased then
        { s.cfg with modulesTable := dinsert name settings1 s.cfg.modulesTable }
      else s.cfg
    let settings2 := if name = "tasks" then
        dinsert "_habitica_settings" (Val.dict (cfg1.module_settings "habits"))
          settings1
      else settings1
    let cfg2 := if aliased && name = "tasks" then
        { cfg1 with modulesTable := dinsert name settings2 cfg1.modulesTable }
      else cfg1
    let sR := { s with cfg := cfg2 }
    if m.renderFails then
      let r := showError env m.errMsg sR
      (baseEvs ++ REv.providerRender name cfg2.displayWidth cfg2.displayHeight
          settings2 false :: REv.logRenderError name :: r.1, r.2.1, r.2.2)
    else
      let r := displayAttempt env name sR
      (baseEvs ++ REv.providerRender name cfg2.displayWidth cfg2.displayHeight
          settings2 true :: r.1, r.2.1, r.2.2)

/-- Outcome of the `/preview_module/<name>` route. -/
inductive PResp where
  | notFound
  | ok
  | err (msg : String)
deriving DecidableEq

/-- `preview_module` from `src/web/routes.py`: its own copy of the settings
resolution (stored settings, defaults when empty, `_timezone`, tasks
snapshot, plus `_fitbit_client_id`/`_fitbit_client_secret` for the fitness
module), then a render whose failure is answered with a JSON error response;
the display sink is never touched. -/
def preview_module (env : RenderEnv) (name : String) (s : RState) :
    List REv × RState × PResp :=
  match dlookup name env.registry with
  | none => ([], s, .notFound)
  | some m =>
    let stored? := dlookup name s.cfg.modulesTable
    let settings0 := stored?.getD []
    let aliased := stored?.isSome && !settings0.isEmpty
    let base := if settings0.isEmpty then m.defaults else settings0
    let baseEvs := if settings0.isEmpty then [REv.providerDefaults name] else []
    let settings1 := dinsert "_timezone" (Val.str s.cfg.timezone) base
    let cfg1 := if aliased then
        { s.cfg with modulesTable := dinsert name settings1 s.cfg.modulesTable }
      else s.cfg
    let settings2 := if name = "tasks" then
        dinsert "_habitica_settings" (Val.dict (cfg1.module_settings "habits"))
          settings1
      else settings1
    let cfg2 := if aliased && name = "tasks" then
        { cfg1 with modulesTable := dinsert name settings2 cfg1.modulesTable }
      else cfg1
    let settings3 := if name = "fitness" then
        dinsert "_fitbit_client_secret" (Val.str s.cfg.fitbitClientSecret)
          (dinsert "_fitbit_client_id" (Val.str s.cfg.fitbitClientId) settings2)
      else settings2
    let cfg3 := if aliased && name = "fitness" then
        { cfg2 with modulesTable := dinsert name settings3 cfg2.modulesTable }
      else cfg2
    let sR := { s with cfg := cfg3 }
    if m.renderFails then
      (baseEvs ++ [REv.providerRender name cfg3.displayWidth cfg3.displayHeight
        settings3 false], sR, .err m.errMsg)
    else
      (baseEvs ++ [REv.providerRender name cfg3.displayWidth cfg3.displayHeight
        settings3 true], sR, .ok)

/-- The settings map of the first provider-render call in a trace. -/
def renderCallSettings : List REv → Option (Dict Val)
  | [] => none
  | .providerRender _ _ _ st _ :: _ => some st
  | _ :: rest => renderCallSettings rest

/-- Whether an event is an invocation of a provider method
(`render` or `default_settings`). -/
def isProviderEv : REv → Bool
  | .providerDefaults _ => true
  | .providerRender _ _ _ _ _ => true
  | _ => false

/-- Whether an event is a display-sink operation. -/
def isSinkEv : REv → Bool
  | .sinkInit => true
  | .sinkShowImage _ => true
  | .sinkShowError _ => true
  | .sinkSleep => true
  | _ => false

theorem showError_cfg (env : RenderEnv) (msg : String) (s : RState) :
    ((showError env msg s).2.1).cfg = s.cfg := by
  by_cases h1 : env.sink.initF s.initIdx <;>
    by_cases h2 : env.sink.showF s.showIdx <;>
      simp [showError, h1, h2]

theorem displayAttempt_cfg (env : RenderEnv) (name : String) (s : RState) :
    ((displayAttempt env name s).2.1).cfg = s.cfg := by
  by_cases h1 : env.sink.initF s.initIdx <;>
    by_cases h2 : env.sink.showF s.showIdx <;>
      by_cases h3 : env.sink.sleepF s.sleepIdx <;>
        simp [displayAttempt, showError_cfg, h1, h2, h3]

theorem renderCallSettings_showError (env : RenderEnv) (msg : String)
    (s : RState) : renderCallSettings (showError env msg s).1 = none := by
  by_cases h1 : env.sink.initF s.initIdx <;>
    by_cases h2 : env.sink.showF s.showIdx <;>
      simp [showError, h1, h2, renderCallSettings]

/-! ## Claim C8 -/

/-- C8: For a module name absent from the registry, `render_and_display` logs
an error and drives the generic unknown-module error bitmap through the sink
(init → show → sleep, on a healthy sink), and no provider method — neither
render nor default_settings — is invoked during that call. -/
theorem unknown_module_error_bitmap_no_provider_calls (env : RenderEnv)
    (name : String) (s : RState)
    (habsent : dlookup name env.registry = none)
    (hinit : env.sink.initF s.initIdx = false)
    (hshow : env.sink.showF s.showIdx = false) :
    (∀ e ∈ (render_and_display env (some name) s).1, isProviderEv e = false) ∧
    (render_and_display env (some name) s).1 =
      [REv.logUnknown name, REv.sinkInit,
       REv.sinkShowError ("Unknown module: " ++ name), REv.sinkSleep] := by
  have htrace : (render_and_display env (some name) s).1 =
      [REv.logUnknown name, REv.sinkInit,
       REv.sinkShowError ("Unknown module: " ++ name), REv.sinkSleep] := by
    simp [render_and_display, showError, habsent, hinit, hshow]
  refine ⟨?_, htrace⟩
  rw [htrace]
  intro e he
  simp only [List.mem_cons, List.mem_singleton] at he
  rcases he with rfl | rfl | rfl | rfl | hfalse
  · rfl
  · rfl
  · rfl
  · rfl
  · simp at hfalse

def witEnvC8 : RenderEnv :=
  { registry := [],
    sink := { initF := fun _ => false, showF := fun _ => false,
              sleepF := fun _ => false } }

def witStateC8 : RState := ⟨⟨[], "UTC", 800, 480, none, "", ""⟩, 0, 0, 0⟩

theorem unknown_module_error_bitmap_no_provider_calls_witness :
    (∀ e ∈ (render_and_display witEnvC8 (some "ghost") witStateC8).1,
      isProviderEv e = false) ∧
    (render_and_display witEnvC8 (some "ghost") witStateC8).1 =
      [REv.logUnknown "ghost", REv.sinkInit,
       REv.sinkShowError ("Unknown module: " ++ "ghost"), REv.sinkSleep] :=
  unknown_module_error_bitmap_no_provider_calls witEnvC8 "ghost" witStateC8
    rfl rfl rfl

/-! ## Claim C4 -/

/-- Environment for the C4 counterexample: module m renders fine, but every
`Show` call on the sink raises; `Init` and `Sleep` never fail. -/
def cexEnvC4 : RenderEnv :=
  { registry := [("m", ⟨[("k", Val.str "v")], false, "boom"⟩)],
    sink := { initF := fun _ => false, showF := fun _ => true,
              sleepF := fun _ => false } }

def cexStateC4 : RState :=
  ⟨⟨[("m", [("x", Val.str "y")])], "UTC", 800, 480, none, "", ""⟩, 0, 0, 0⟩

/-- C4 counterexample: `Show` raises after `Init` succeeded — first in the
normal path, then again in the error-bitmap path — and `Sleep` is never
invoked; the exception even escapes the renderer.  The code has no
`finally`, so the sink is left awake. -/
theorem show_failure_leaves_sink_awake :
    REv.sinkSleep ∉ (render_and_display cexEnvC4 (some "m") cexStateC4).1 ∧
    (render_and_display cexEnvC4 (some "m") cexStateC4).2.2 = true := by
  decide

/-- C4 (amended): `Sleep` is not protected by a `finally`.  In the
error-bitmap path (`_show_error`) a `Show` failure after a successful `Init`
propagates immediately: the trace ends at the failed show and `Sleep` is not
invoked.  In the normal path a `Show` failure is caught and the error-bitmap
path re-runs `Init → Show → Sleep`, so `Sleep` runs iff that second sequence
reaches it (here: error-path init and show succeed). -/
theorem sleep_after_show_failure_only_via_error_path
    (env : RenderEnv) (msg : String) (s : RState)
    (env' : RenderEnv) (name : String) (m : ModuleBeh) (s' : RState)
    (hinit : env.sink.initF s.initIdx = false)
    (hshow : env.sink.showF s.showIdx = true)
    (hm : dlookup name env'.registry = some m)
    (hok : m.renderFails = false)
    (hinit0 : ∀ k, env'.sink.initF k = false)
    (hshow0 : env'.sink.showF s'.showIdx = true)
    (hshow1 : env'.sink.showF (s'.showIdx + 1) = false) :
    ((showError env msg s).1 = [REv.sinkInit, REv.sinkShowError msg] ∧
      (showError env msg s).2.2 = true ∧
      REv.sinkSleep ∉ (showError env msg s).1) ∧
    REv.sinkSleep ∈ (render_and_display env' (some name) s').1 := by
  constructor
  · refine ⟨?_, ?_, ?_⟩ <;> simp [showError, hinit, hshow]
  · by_cases hempty : ((dlookup name s'.cfg.modulesTable).getD []).isEmpty <;>
      simp [render_and_display, hm, hok, hempty, displayAttempt, showError,
        hinit0, hshow0, hshow1]

/-- Environment for the C4 witness: `Show` fails exactly at its first call. -/
def witEnvC4 : RenderEnv :=
  { registry := [("m", ⟨[], false, "boom"⟩)],
    sink := { initF := fun _ => false, showF := fun k => decide (k = 0),
              sleepF := fun _ => false } }

def witStateC4 : RState := ⟨⟨[], "UTC", 800, 480, none, "", ""⟩, 0, 0, 0⟩

theorem sleep_after_show_failure_only_via_error_path_witness :
    ((showError witEnvC4 "x" witStateC4).1
        = [REv.sinkInit, REv.sinkShowError "x"] ∧
      (showError witEnvC4 "x" witStateC4).2.2 = true ∧
      REv.sinkSleep ∉ (showError witEnvC4 "x" witStateC4).1) ∧
    REv.sinkSleep ∈ (render_and_display witEnvC4 (some "m") witStateC4).1 :=
  sleep_after_show_failure_only_via_error_path witEnvC4 "x" witStateC4
    witEnvC4 "m" ⟨[], false, "boom"⟩ witStateC4
    rfl rfl rfl rfl (fun _ => rfl) rfl rfl

/-! ## Claim C5 -/

/-- `PhotosModule.default_settings()`. -/
def photosDefaults : Dict Val :=
  [("photo_dir", Val.str "uploads"), ("display_mode", Val.str "fill")]

def cexEnvC5 : RenderEnv :=
  { registry := [("photos", ⟨photosDefaults, false, "err"⟩)],
    sink := { initF := fun _ => false, showF := fun _ => false,
              sleepF := fun _ => false } }

def cexStateC5 : RState :=
  ⟨⟨[], "Europe/Brussels", 800, 480, none, "", ""⟩, 0, 0, 0⟩

/-- C5 counterexample: with empty stored settings, the map passed to the
bitmap-producing render call is `DefaultSettings()` *plus* the injected
`_timezone` key, hence not value-equal to `DefaultSettings()`. -/
theorem settings_passed_to_render_not_equal_defaults :
    renderCallSettings (render_and_display cexEnvC5 (some "photos") cexStateC5).1
      = some (dinsert "_timezone" (Val.str "Europe/Brussels") photosDefaults) ∧
    ¬ dequiv (dinsert "_timezone" (Val.str "Europe/Brussels") photosDefaults)
        photosDefaults :=
  ⟨by decide, fun h => absurd (h "_timezone") (by decide)⟩

/-- C5 (amended): with empty stored settings the map passed to the render
call equals `DefaultSettings()` extended with the injected context keys
(`_timezone` always; `_habitica_settings` for the tasks module); on every
key other than the injected ones it agrees with `DefaultSettings()`. -/
theorem empty_settings_get_defaults_plus_context (env : RenderEnv)
    (name : String) (m : ModuleBeh) (s : RState)
    (hm : dlookup name env.registry = some m)
    (hempty : (s.cfg.module_settings name).isEmpty = true) :
    renderCallSettings (render_and_display env (some name) s).1 = some
      (if name = "tasks" then
        dinsert "_habitica_settings" (Val.dict (s.cfg.module_settings "habits"))
          (dinsert "_timezone" (Val.str s.cfg.timezone) m.defaults)
      else dinsert "_timezone" (Val.str s.cfg.timezone) m.defaults) ∧
    (∀ k, k ≠ "_timezone" → k ≠ "_habitica_settings" →
      dlookup k (if name = "tasks" then
          dinsert "_habitica_settings" (Val.dict (s.cfg.module_settings "habits"))
            (dinsert "_timezone" (Val.str s.cfg.timezone) m.defaults)
        else dinsert "_timezone" (Val.str s.cfg.timezone) m.defaults)
        = dlookup k m.defaults) := by
  simp only [CfgData.module_settings] at hempty
  constructor
  · by_cases hrf : m.renderFails <;>
      simp [render_and_display, hm, hempty, hrf, renderCallSettings,
        CfgData.module_settings]
  · intro k hk1 hk2
    by_cases ht : name = "tasks"
    · simp only [ht, if_true]
      rw [dlookup_dinsert_ne _ _ (Ne.symm hk2),
        dlookup_dinsert_ne _ _ (Ne.symm hk1)]
    · simp only [ht, if_false]
      rw [dlookup_dinsert_ne _ _ (Ne.symm hk1)]

theorem empty_settings_get_defaults_plus_context_witness :
    renderCallSettings (render_and_display cexEnvC5 (some "photos") cexStateC5).1
      = some (dinsert "_timezone" (Val.str "Europe/Brussels") photosDefaults) ∧
    (∀ k, k ≠ "_timezone" → k ≠ "_habitica_settings" →
      dlookup k (dinsert "_timezone" (Val.str "Europe/Brussels") photosDefaults)
        = dlookup k photosDefaults) := by
  have h := empty_settings_get_defaults_plus_context cexEnvC5 "photos"
    ⟨photosDefaults, false, "err"⟩ cexStateC5 rfl rfl
  exact h

/-! ## Claim C10 -/

/-- The configuration store after a `render_and_display` call on a registered
module: updated by the in-place mutations of the settings-resolution phase;
the display phase never touches it. -/
theorem render_and_display_cfg (env : RenderEnv) (name : String)
    (m : ModuleBeh) (s : RState) (hm : dlookup name env.registry = some m) :
    ((render_and_display env (some name) s).2.1).cfg =
      (let stored? := dlookup name s.cfg.modulesTable
       let settings0 := stored?.getD []
       let aliased := stored?.isSome && !settings0.isEmpty
       let base := if settings0.isEmpty then m.defaults else settings0
       let settings1 := dinsert "_timezone" (Val.str s.cfg.timezone) base
       let cfg1 := if aliased then
           { s.cfg with modulesTable := dinsert name settings1 s.cfg.modulesTable }
         else s.cfg
       let settings2 := if name = "tasks" then
           dinsert "_habitica_settings" (Val.dict (cfg1.module_settings "habits"))
             settings1
         else settings1
       if aliased && name = "tasks" then
         { cfg1 with modulesTable := dinsert name settings2 cfg1.modulesTable }
       else cfg1) := by
  by_cases hrf : m.renderFails <;>
    simp [render_and_display, hm, hrf, showError_cfg, displayAttempt_cfg]

/-- C10: For a registered module whose persisted settings map is non-empty,
`render_and_display` mutates the stored map in place: afterwards
`module_settings(name)` contains the injected reserved key `_timezone`
(bound to the configured timezone), and for the tasks module also
`_habitica_settings` — the configuration state observable through
`module_settings` is not left unchanged by a render. -/
theorem render_mutates_stored_settings (env : RenderEnv) (name : String)
    (m : ModuleBeh) (s : RState) (d : Dict Val)
    (hm : dlookup name env.registry = some m)
    (hstored : dlookup name s.cfg.modulesTable = some d)
    (hne : d.isEmpty = false) :
    dlookup "_timezone"
        (((render_and_display env (some name) s).2.1).cfg.module_settings name)
      = some (Val.str s.cfg.timezone) ∧
    (name = "tasks" →
      (dlookup "_habitica_settings"
          (((render_and_display env (some name) s).2.1).cfg.module_settings
            name)).isSome = true) := by
  have hc := render_and_display_cfg env name m s hm
  rw [hstored] at hc
  simp only [Option.getD_some, Option.isSome_some, Bool.true_and, hne,
    Bool.not_false, Bool.false_eq_true, if_false] at hc
  by_cases ht : name = "tasks"
  · subst ht
    simp only [if_pos rfl, Bool.and_true, if_true, decide_True, reduceIte] at hc
    rw [hc]
    constructor
    · simp only [CfgData.module_settings, dlookup_dinsert_self, Option.getD_some]
      rw [dlookup_dinsert_ne _ _ (by decide), dlookup_dinsert_self]
    · intro _
      simp only [CfgData.module_settings, dlookup_dinsert_self, Option.getD_some]
      rfl
  · simp only [ht, if_false, Bool.and_eq_true, decide_eq_true_eq, and_false,
      reduceIte] at hc
    rw [hc]
    refine ⟨?_, fun h => absurd h ht⟩
    simp only [CfgData.module_settings, dlookup_dinsert_self, Option.getD_some,
      dlookup_dinsert_self]

def witEnvC10 : RenderEnv :=
  { registry := [("tasks", ⟨[("task_list", Val.str "My Tasks")], false, "err"⟩)],
    sink := { initF := fun _ => false, showF := fun _ => false,
              sleepF := fun _ => false } }

def witStateC10 : RState :=
  ⟨⟨[("tasks", [("task_list", Val.str "Inbox")]),
     ("habits", [("habitica_user_id", Val.str "u")])],
    "Europe/Prague", 800, 480, none, "", ""⟩, 0, 0, 0⟩

/-! ## Claim C9 -/

/-- Environment for the C9 counterexample: the fitness module is registered
with failing render; fitbit credentials are configured. -/
def cexEnvC9 : RenderEnv :=
  { registry := [("fitness",
      ⟨[("weight_unit", Val.str "kg"), ("step_goal", Val.str "10000")],
        true, "api down"⟩)],
    sink := { initF := fun _ => false, showF := fun _ => false,
              sleepF := fun _ => false } }

def cexStateC9 : RState :=
  ⟨⟨[("fitness", [("weight_unit", Val.str "kg")])], "UTC", 800, 480, none,
    "abc", "xyz"⟩, 0, 0, 0⟩

/-- C9 counterexample: for the fitness module the preview path resolves a
different settings map than the scheduled path (it additionally injects
`_fitbit_client_id`/`_fitbit_client_secret`), and its failure handling
differs: the preview answers with a JSON error response and performs no
display-sink operation, while the scheduled path drives an error bitmap
through the sink. -/
theorem preview_settings_and_failure_handling_diverge :
    renderCallSettings (preview_module cexEnvC9 "fitness" cexStateC9).1
      ≠ renderCallSettings
          (render_and_display cexEnvC9 (some "fitness") cexStateC9).1 ∧
    (preview_module cexEnvC9 "fitness" cexStateC9).2.2 = PResp.err "api down" ∧
    (∀ e ∈ (preview_module cexEnvC9 "fitness" cexStateC9).1,
      isSinkEv e = false) ∧
    REv.sinkShowError "api down"
      ∈ (render_and_display cexEnvC9 (some "fitness") cexStateC9).1 := by
  decide

/-- C9 (amended): for every module other than fitness, the preview operation
resolves exactly the settings map the scheduled path passes to the render
call (persisted settings, default substitution when empty, injected
`_timezone` and tasks snapshot); for fitness the preview additionally
injects the two fitbit credential keys.  Failure handling differs: the
preview never touches the display sink (no error bitmap); it reports
failure in its response instead. -/
theorem preview_matches_scheduled_settings_except_fitness (env : RenderEnv)
    (name : String) (s : RState) (hname : name ≠ "fitness") :
    renderCallSettings (preview_module env name s).1
      = renderCallSettings (render_and_display env (some name) s).1 ∧
    (∀ e ∈ (preview_module env name s).1, isSinkEv e = false) := by
  constructor
  · rcases hreg : dlookup name env.registry with _ | m
    · simp [preview_module, render_and_display, hreg, renderCallSettings,
        renderCallSettings_showError]
    · by_cases hempty : ((dlookup name s.cfg.modulesTable).getD []).isEmpty <;>
        by_cases hrf : m.renderFails <;>
          simp [preview_module, render_and_display, hreg, hempty, hrf, hname,
            renderCallSettings]
  · rcases hreg : dlookup name env.registry with _ | m
    · simp [preview_module, hreg]
    · intro e he
      by_cases hempty : ((dlookup name s.cfg.modulesTable).getD []).isEmpty <;>
        by_cases hrf : m.renderFails <;>
          (simp [preview_module, hreg, hempty, hrf] at he;
           rcases he with rfl | rfl <;> rfl)

def witEnvC9 : RenderEnv :=
  { registry := [("habits",
      ⟨[("habitica_user_id", Val.str ""), ("max_display", Val.int 8)],
        false, "err"⟩)],
    sink := { initF := fun _ => false, showF := fun _ => false,
              sleepF := fun _ => false } }

def witStateC9 : RState :=
  ⟨⟨[("habits", [("habitica_user_id", Val.str "u")])], "UTC", 800, 480, none,
    "", ""⟩, 0, 0, 0⟩

theorem preview_matches_scheduled_settings_except_fitness_witness :
    renderCallSettings (preview_module witEnvC9 "habits" witStateC9).1
      = renderCallSettings
          (render_and_display witEnvC9 (some "habits") witStateC9).1 ∧
    (∀ e ∈ (preview_module witEnvC9 "habits" witStateC9).1,
      isSinkEv e = false) :=
  preview_matches_scheduled_settings_except_fitness witEnvC9 "habits"
    witStateC9 (by decide)

/-! ## Claim C1, amended -/

/-- C1 (amended): the scheduler loop itself catches nothing (a raising render
callback terminates the worker); error absorption lives in the render
callback instead.  `Renderer.render_and_display` absorbs a provider render
failure — with a healthy sink it returns normally after driving the error
bitmap — and with any never-raising callback the scheduler performs every
scheduled render attempt: in single-module mode, `fuel` iterations yield
exactly `fuel` attempts, so after 10 consecutive absorbed failures an 11th
scheduled render attempt still occurs. -/
theorem render_errors_absorbed_in_callback_not_loop
    (renv : RenderEnv) (name : String) (m : ModuleBeh) (rs : RState)
    (hm : dlookup name renv.registry = some m)
    (hfail : m.renderFails = true)
    (hinit : ∀ k, renv.sink.initF k = false)
    (hshow : ∀ k, renv.sink.showF k = false)
    (hsleep : ∀ k, renv.sink.sleepF k = false)
    (senv : SchedEnv) (fuel : Nat) (s : SchedCounters)
    (hrender : ∀ k, senv.renderOk k = true)
    (hstop : ∀ k, senv.stopSet k = false)
    (hrot : ∀ k, (senv.cfgs k).rotation_enabled = false) :
    ((render_and_display renv (some name) rs).2.2 = false ∧
      REv.sinkShowError m.errMsg ∈ (render_and_display renv (some name) rs).1) ∧
    ((runLoop senv fuel s).2.2 ≠ RunResult.raised ∧
      (attemptsOf (runLoop senv fuel s).1).length = fuel) := by
  refine ⟨⟨?_, ?_⟩, runLoop_never_raises senv fuel s hrender,
    attempts_count_single_mode senv fuel s hrender hstop hrot⟩ <;>
    by_cases hempty : ((dlookup name rs.cfg.modulesTable).getD []).isEmpty <;>
      simp [render_and_display, hm, hfail, hempty, showError, hinit, hshow,
        hsleep]

def witREnvC1 : RenderEnv :=
  { registry := [("clock", ⟨[], true, "network down"⟩)],
    sink := { initF := fun _ => false, showF := fun _ => false,
              sleepF := fun _ => false } }

def witRStateC1 : RState := ⟨⟨[], "UTC", 800, 480, none, "", ""⟩, 0, 0, 0⟩

/-- Scheduler environment for the C1 amended witness: single-module mode,
callback never raises (as `render_and_display` with a healthy sink). -/
def witSEnvC1 : SchedEnv :=
  { cfgs := fun _ => ⟨some 1, some "clock", []⟩,
    stopSet := fun _ => false,
    forceWait := fun _ => false,
    renderOk := fun _ => true }

theorem render_errors_absorbed_in_callback_not_loop_witness :
    ((render_and_display witREnvC1 (some "clock") witRStateC1).2.2 = false ∧
      REv.sinkShowError "network down"
        ∈ (render_and_display witREnvC1 (some "clock") witRStateC1).1) ∧
    ((runLoop witSEnvC1 11 s0).2.2 ≠ RunResult.raised ∧
      (attemptsOf (runLoop witSEnvC1 11 s0).1).length = 11) :=
  render_errors_absorbed_in_callback_not_loop witREnvC1 "clock"
    ⟨[], true, "network down"⟩ witRStateC1 rfl rfl
    (fun _ => rfl) (fun _ => rfl) (fun _ => rfl)
    witSEnvC1 11 s0 (fun _ => rfl) (fun _ => rfl) (fun _ => rfl)

theorem render_mutates_stored_settings_witness :
    dlookup "_timezone"
        (((render_and_display witEnvC10 (some "tasks") witStateC10).2.1).cfg.module_settings
          "tasks")
      = some (Val.str "Europe/Prague") ∧
    ("tasks" = "tasks" →
      (dlookup "_habitica_settings"
          (((render_and_display witEnvC10 (some "tasks") witStateC10).2.1).cfg.module_settings
            "tasks")).isSome = true) :=
  render_mutates_stored_settings witEnvC10 "tasks"
    ⟨[("task_list", Val.str "My Tasks")], false, "err"⟩ witStateC10
    [("task_list", Val.str "Inbox")] rfl rfl rfl

end EinkPi
